import Mathlib

/-!
Verification of the geo-aware redirect service's core:
routing decision, configuration validation and storage, geo-resolution
engine, and the key-value store adapter.  Each definition is a shallow
embedding of the corresponding JavaScript function; source locations are
given in the doc comments.  JavaScript `undefined`/`null` string-or-absent
values are modelled as `Option String` (both nullish forms behave
identically in every embedded code path), and JavaScript truthiness of a
string is `s ≠ ""`.
-/

/-- JavaScript truthiness of an optional string: `undefined`, `null` and
`""` are falsy, every other string is truthy. -/
def jsTruthy : Option String → Bool
  | none => false
  | some s => s ≠ ""

/-- JavaScript `String.prototype.toUpperCase()`, character-wise (the
strings the service compares are plain ASCII country codes). -/
def jsToUpper (s : String) : String :=
  String.mk (s.data.map Char.toUpper)

/-- JavaScript `String.prototype.toLowerCase()`, character-wise. -/
def jsToLower (s : String) : String :=
  String.mk (s.data.map Char.toLower)

/-- Embedding of `determineRouting(country, forceCountry = null)` from the
geo service (`services/geo.js`): if `forceCountry` is truthy, uppercase it
and return `"TR"` exactly when it equals `"TR"`, else `"REST"`; otherwise
return `"TR"` exactly when the resolved `country` equals `"TR"`.  The
`forceCountry.toUpperCase()` call only happens under the truthiness guard,
so the function is total on all string inputs. -/
def determineRouting (country : String) (forceCountry : Option String := none) : String :=
  if jsTruthy forceCountry then
    let force := jsToUpper (forceCountry.getD "")
    if force = "TR" then "TR" else "REST"
  else
    if country = "TR" then "TR" else "REST"

theorem determineRouting_none (c : String) :
    determineRouting c none = (if c = "TR" then "TR" else "REST") := by
  simp [determineRouting, jsTruthy]

/-- C1: `determineRouting` is total (the embedding is a total Lean function;
the only partial JavaScript operation, `toUpperCase`, is guarded by the
truthiness test) and satisfies: override `"TR"` gives `"TR"`, override
`"tr"` gives `"TR"`, override `"REST"` gives `"REST"`, no override gives
`"TR"` exactly for resolved country `"TR"` and `"REST"` otherwise, and a
truthy override makes the result independent of the resolved country. -/
theorem determineRouting_spec (c c' f : String) (hf : f ≠ "") :
    determineRouting c (some "TR") = "TR" ∧
    determineRouting c (some "tr") = "TR" ∧
    determineRouting c (some "REST") = "REST" ∧
    determineRouting c none = (if c = "TR" then "TR" else "REST") ∧
    determineRouting c (some f) = determineRouting c' (some f) := by
  refine ⟨?_, ?_, ?_, determineRouting_none c, ?_⟩ <;>
    simp [determineRouting, jsTruthy, jsToUpper, hf] <;> decide

/-- Witness for C1 at concrete inputs. -/
theorem determineRouting_spec_witness :
    determineRouting "US" (some "TR") = "TR" ∧
    determineRouting "US" (some "tr") = "TR" ∧
    determineRouting "US" (some "REST") = "REST" ∧
    determineRouting "US" none = (if "US" = "TR" then "TR" else "REST") ∧
    determineRouting "US" (some "XX") = determineRouting "TR" (some "XX") :=
  determineRouting_spec "US" "TR" "XX" (by decide)

/-- C10: an empty-string forced override is falsy in the
`if (forceCountry)` guard, hence treated exactly like an absent override:
the decision follows the resolved country, and in particular
`determineRouting "TR" (some "") = "TR"`. -/
theorem determineRouting_empty_override (c : String) :
    determineRouting c (some "") = determineRouting c none ∧
    determineRouting "TR" (some "") = "TR" := by
  constructor
  · simp [determineRouting, jsTruthy]
  · simp [determineRouting, jsTruthy]

/-! ## Configuration validation (`src/config/validation.js`)

The validators throw `ValidationError` with a message; we embed each one
as `Except String α` where the `error` component is the thrown message.
String operations are implemented over `String.data` (a `List Char`) so
that every definition reduces in the kernel. -/

deriving instance DecidableEq for Except

/-- The message list carried by a validator result: the thrown message,
or nothing on success. -/
def errsOf {α : Type} : Except String α → List String
  | .error m => [m]
  | .ok _ => []

/-- `number.replace(/[^\d]/g, '')`: strip every non-digit character. -/
def stripNonDigits (s : String) : String :=
  String.mk (s.data.filter Char.isDigit)

/-- `phoneNumberRegex = /^[1-9]\d{6,14}$/`: 7-15 digits, not starting
with `0`. -/
def phoneNumberTest (s : String) : Bool :=
  match s.data with
  | [] => false
  | c :: rest =>
    ('1' ≤ c && c ≤ '9') && rest.all Char.isDigit &&
      decide (6 ≤ rest.length) && decide (rest.length ≤ 14)

/-- `validatePhoneNumber(number, field)`: requires a truthy value, strips
non-digits, then tests the phone-number shape; returns the **cleaned**
number on success. -/
def validatePhoneNumber (number : Option String) (field : String) : Except String String :=
  if !jsTruthy number then
    .error (field ++ " number is required")
  else
    let cleanNumber := stripNonDigits (number.getD "")
    if phoneNumberTest cleanNumber then .ok cleanNumber
    else .error (field ++ " number must be 7-15 digits and not start with 0")

/-- `validateText(text, field, maxLength = 1000)`: rejects a truthy text
longer than `maxLength`, and maps falsy input to `""`. -/
def validateText (text : Option String) (field : String) (maxLength : Nat := 1000) :
    Except String String :=
  if jsTruthy text && decide ((text.getD "").data.length > maxLength) then
    .error (field ++ " must be less than " ++ toString maxLength ++ " characters")
  else
    .ok (if jsTruthy text then text.getD "" else "")

/-- `telegramChannelRegex = /^[a-zA-Z0-9_]{5,32}$/`. -/
def telegramChannelTest (s : String) : Bool :=
  decide (5 ≤ s.data.length) && decide (s.data.length ≤ 32) &&
    s.data.all (fun c => c.isAlphanum || c = '_')

/-- `validateTelegramChannel(channel, field)`: requires a truthy value,
drops one leading `@`, then tests the channel shape; returns the cleaned
channel on success. -/
def validateTelegramChannel (channel : Option String) (field : String) : Except String String :=
  if !jsTruthy channel then .error (field ++ " is required")
  else
    let raw := channel.getD ""
    let cleanChannel := if raw.data.head? = some '@' then String.mk raw.data.tail else raw
    if telegramChannelTest cleanChannel then .ok cleanChannel
    else .error (field ++ " must be 5-32 characters, alphanumeric and underscores only")

/-- Character class `[-a-zA-Z0-9@:%._\+~#=]` of `websiteUrlRegex`. -/
def urlHostChar (c : Char) : Bool :=
  c = '-' || c.isAlphanum || c = '@' || c = ':' || c = '%' || c = '.' ||
    c = '_' || c = '+' || c = '~' || c = '#' || c = '='

/-- Character class `[a-zA-Z0-9()]` of `websiteUrlRegex` (the TLD part). -/
def urlTldChar (c : Char) : Bool :=
  c.isAlphanum || c = '(' || c = ')'

/-- Character class `[-a-zA-Z0-9()@:%_\+.~#?&//=]` of `websiteUrlRegex`
(the part after the word boundary). -/
def urlTailChar (c : Char) : Bool :=
  c = '-' || c.isAlphanum || c = '(' || c = ')' || c = '@' || c = ':' ||
    c = '%' || c = '_' || c = '+' || c = '.' || c = '~' || c = '#' ||
    c = '?' || c = '&' || c = '/' || c = '='

/-- Regex word character (`\w`), for the `\b` boundary in
`websiteUrlRegex`. -/
def wordChar (c : Char) : Bool := c.isAlphanum || c = '_'

/-- Match of `[-a-zA-Z0-9@:%._\+~#=]{1,256}\.[a-zA-Z0-9()]{1,6}\b(tail)*$`
against `cs`, expressed as the existence of split points (the match
semantics of the regex). -/
def urlAfterScheme (cs : List Char) : Bool :=
  (List.range (min cs.length 256)).any fun i =>
    let host := cs.take (i + 1)
    decide (host.length = i + 1) && host.all urlHostChar &&
    ((cs.drop (i + 1)).head? = some '.') &&
    ((List.range 6).any fun j =>
      let afterDot := cs.drop (i + 2)
      let tld := afterDot.take (j + 1)
      let rest := afterDot.drop (j + 1)
      let prevWord := (tld.getLast?.map wordChar).getD false
      let nextWord := (rest.head?.map wordChar).getD false
      decide (tld.length = j + 1) && tld.all urlTldChar &&
        (prevWord != nextWord) && rest.all urlTailChar)

/-- `websiteUrlRegex = /^https?:\/\/(www\.)?…$/`: scheme, optional
`www.`, then dotted host and tail as in `urlAfterScheme`. -/
def websiteUrlTest (url : String) : Bool :=
  let tailMatch (rest : List Char) : Bool :=
    urlAfterScheme rest ||
      ("www.".data.isPrefixOf rest && urlAfterScheme (rest.drop 4))
  if "https://".data.isPrefixOf url.data then tailMatch (url.data.drop 8)
  else if "http://".data.isPrefixOf url.data then tailMatch (url.data.drop 7)
  else false

/-- `validateWebsiteUrl(url, field)`. -/
def validateWebsiteUrl (url : Option String) (field : String) : Except String String :=
  if !jsTruthy url then .error (field ++ " is required")
  else if websiteUrlTest (url.getD "") then .ok (url.getD "")
  else .error (field ++ " must be a valid HTTP or HTTPS URL")

/-- `validateRedirectType(type, field)`: requires a truthy value, accepts
`immediate`/`delayed`/`custom` case-insensitively, returns the lowercased
value. -/
def validateRedirectType (t : Option String) (field : String) : Except String String :=
  if !jsTruthy t then .error (field ++ " is required")
  else
    let lower := jsToLower (t.getD "")
    if lower = "immediate" || lower = "delayed" || lower = "custom" then .ok lower
    else .error (field ++ " must be one of: immediate, delayed, custom")

/-- `validateRedirectDelay(delay, field)`: `undefined` and `null` both
yield the default `3000`; an integer delay is accepted exactly in
`[0, 30000]` (`parseInt` of an integer is the integer itself; the `NaN`
branch only concerns non-numeric inputs, outside this record model). -/
def validateRedirectDelay (delay : Option Int) (field : String) : Except String Int :=
  match delay with
  | none => .ok 3000
  | some d =>
    if d < 0 || d > 30000 then
      .error (field ++ " must be a number between 0 and 30000 milliseconds")
    else .ok d

/-- The configuration record handled by `validateConfiguration` and the
configuration storage (`src/storage/config.js`).  String-valued fields may
be absent (`undefined`/`null` ↦ `none`); `redirect_delay` is numeric. -/
structure ConfigRecord where
  number_default : Option String := none
  number_tr : Option String := none
  text_default : Option String := none
  text_tr : Option String := none
  telegram_channel_default : Option String := none
  telegram_channel_tr : Option String := none
  telegram_text_default : Option String := none
  telegram_text_tr : Option String := none
  website_url_default : Option String := none
  website_url_tr : Option String := none
  redirect_type : Option String := none
  redirect_delay : Option Int := none
  redirect_message : Option String := none
deriving Repr, DecidableEq

/-- The error list accumulated by `validateConfiguration(config)`: the two
phone numbers and two texts are always checked; Telegram channels, website
URLs and the redirect type only when truthy; Telegram texts and the
redirect delay only when present (`!== undefined`); `redirect_message` is
never validated. -/
def configErrors (c : ConfigRecord) : List String :=
  errsOf (validatePhoneNumber c.number_default "default") ++
  errsOf (validatePhoneNumber c.number_tr "Turkey") ++
  errsOf (validateText c.text_default "default text") ++
  errsOf (validateText c.text_tr "Turkey text") ++
  (if jsTruthy c.telegram_channel_default then
    errsOf (validateTelegramChannel c.telegram_channel_default "default Telegram channel")
  else []) ++
  (if jsTruthy c.telegram_channel_tr then
    errsOf (validateTelegramChannel c.telegram_channel_tr "Turkey Telegram channel")
  else []) ++
  (if c.telegram_text_default.isSome then
    errsOf (validateText c.telegram_text_default "default Telegram text")
  else []) ++
  (if c.telegram_text_tr.isSome then
    errsOf (validateText c.telegram_text_tr "Turkey Telegram text")
  else []) ++
  (if jsTruthy c.website_url_default then
    errsOf (validateWebsiteUrl c.website_url_default "default website URL")
  else []) ++
  (if jsTruthy c.website_url_tr then
    errsOf (validateWebsiteUrl c.website_url_tr "Turkey website URL")
  else []) ++
  (if jsTruthy c.redirect_type then
    errsOf (validateRedirectType c.redirect_type "redirect type")
  else []) ++
  (if c.redirect_delay.isSome then
    errsOf (validateRedirectDelay c.redirect_delay "redirect delay")
  else [])

/-- `validateConfiguration(config)`: accumulates all per-field failures
and, if any, throws one `ValidationError` whose message joins them all
(`'Configuration validation failed: ' + errors.join(', ')`); on success it
returns the record **unchanged** (the cleaned values computed by the
per-field validators are discarded). -/
def validateConfiguration (c : ConfigRecord) : Except (List String) ConfigRecord :=
  if configErrors c = [] then .ok c else .error (configErrors c)

/-! ## Configuration storage (`src/storage/config.js`)

`ConfigStorage` keeps an in-process cached copy (`cachedConfig`,
`lastCacheTime`, freshness window `cacheTTL = 300` seconds) above the
key-value store, where the record is persisted under the single key
`'whatsapp_config'`; we model that slot directly.  A stored value that
fails to parse behaves exactly like a missing one (both fall through to
the defaults), so the slot holds the parsed record or `none`. -/

/-- `this.cacheTTL = 300` seconds (the freshness comparison in the source
is against `cacheTTL * 1000` milliseconds). -/
def configCacheTTL : Nat := 300

/-- State of a `ConfigStorage` instance plus its `whatsapp_config` slot in
the key-value store. -/
structure ConfigState where
  cachedConfig : Option ConfigRecord := none
  lastCacheTime : Nat := 0
  storedConfig : Option ConfigRecord := none
deriving Repr, DecidableEq

/-- The store-read path of `getConfig`: parsed stored record if present
(else the environment `defaults`), cached with the current time. -/
def getConfigFromStore (defaults : ConfigRecord) (now : Nat) (st : ConfigState) :
    ConfigRecord × ConfigState :=
  match st.storedConfig with
  | some parsed => (parsed, { st with cachedConfig := some parsed, lastCacheTime := now })
  | none => (defaults, { st with cachedConfig := some defaults, lastCacheTime := now })

/-- `getConfig()`: serve the cached copy while it is fresher than
`cacheTTL` seconds, else read the store (falling back to defaults). -/
def getConfig (defaults : ConfigRecord) (now : Nat) (st : ConfigState) :
    ConfigRecord × ConfigState :=
  match st.cachedConfig with
  | some cc =>
    if now - st.lastCacheTime < configCacheTTL * 1000 then (cc, st)
    else getConfigFromStore defaults now st
  | none => getConfigFromStore defaults now st

/-- `setConfig(newConfig)`: validate first — a `ValidationError` is
rethrown before the cache or the store is touched — then update the cache
and persist to the store. -/
def setConfig (c : ConfigRecord) (now : Nat) (st : ConfigState) :
    Except (List String) ConfigRecord × ConfigState :=
  match validateConfiguration c with
  | .error es => (.error es, st)
  | .ok validated =>
    (.ok validated,
      { cachedConfig := some validated, lastCacheTime := now, storedConfig := some validated })

/-- A partial update as passed to `updateConfig`: for each field, `none`
means the key is absent from the update object, `some v` means the key is
present with value `v` (possibly itself nullish). -/
structure ConfigUpdates where
  number_default : Option (Option String) := none
  number_tr : Option (Option String) := none
  text_default : Option (Option String) := none
  text_tr : Option (Option String) := none
  telegram_channel_default : Option (Option String) := none
  telegram_channel_tr : Option (Option String) := none
  telegram_text_default : Option (Option String) := none
  telegram_text_tr : Option (Option String) := none
  website_url_default : Option (Option String) := none
  website_url_tr : Option (Option String) := none
  redirect_type : Option (Option String) := none
  redirect_delay : Option (Option Int) := none
  redirect_message : Option (Option String) := none
deriving Repr, DecidableEq

/-- The shallow merge `{ ...currentConfig, ...updates }`. -/
def mergeConfig (cur : ConfigRecord) (upd : ConfigUpdates) : ConfigRecord where
  number_default := upd.number_default.getD cur.number_default
  number_tr := upd.number_tr.getD cur.number_tr
  text_default := upd.text_default.getD cur.text_default
  text_tr := upd.text_tr.getD cur.text_tr
  telegram_channel_default := upd.telegram_channel_default.getD cur.telegram_channel_default
  telegram_channel_tr := upd.telegram_channel_tr.getD cur.telegram_channel_tr
  telegram_text_default := upd.telegram_text_default.getD cur.telegram_text_default
  telegram_text_tr := upd.telegram_text_tr.getD cur.telegram_text_tr
  website_url_default := upd.website_url_default.getD cur.website_url_default
  website_url_tr := upd.website_url_tr.getD cur.website_url_tr
  redirect_type := upd.redirect_type.getD cur.redirect_type
  redirect_delay := upd.redirect_delay.getD cur.redirect_delay
  redirect_message := upd.redirect_message.getD cur.redirect_message

/-- `updateConfig(updates)`: read the current configuration, shallow-merge
the updates over it, delegate to `setConfig`. -/
def updateConfig (defaults : ConfigRecord) (upd : ConfigUpdates) (now : Nat) (st : ConfigState) :
    Except (List String) ConfigRecord × ConfigState :=
  let r := getConfig defaults now st
  setConfig (mergeConfig r.1 upd) now r.2

/-- A minimal valid configuration record (both phone numbers valid, all
optional fields absent). -/
def baseValidConfig : ConfigRecord :=
  { number_default := some "1234567890", number_tr := some "905551234567" }

/-- C9: the accepted redirect-delay range is exactly the closed integer
interval `[0, 30000]`; at the `validateConfiguration` level, `0` and
`30000` are accepted while `30001` and `-1` are rejected with a
`ValidationError` whose message names the redirect delay field. -/
theorem redirectDelay_boundary :
    (∀ n : Int, validateRedirectDelay (some n) "redirect delay" = .ok n ↔ (0 ≤ n ∧ n ≤ 30000)) ∧
    validateConfiguration { baseValidConfig with redirect_delay := some 0 } =
      .ok { baseValidConfig with redirect_delay := some 0 } ∧
    validateConfiguration { baseValidConfig with redirect_delay := some 30000 } =
      .ok { baseValidConfig with redirect_delay := some 30000 } ∧
    validateConfiguration { baseValidConfig with redirect_delay := some 30001 } =
      .error ["redirect delay must be a number between 0 and 30000 milliseconds"] ∧
    validateConfiguration { baseValidConfig with redirect_delay := some (-1) } =
      .error ["redirect delay must be a number between 0 and 30000 milliseconds"] := by
  refine ⟨?_, by decide, by decide, by decide, by decide⟩
  intro n
  by_cases h1 : n < 0
  · simp [validateRedirectDelay, h1]
  · by_cases h2 : n > 30000
    · simp [validateRedirectDelay, h1, h2]
    · simp [validateRedirectDelay, h1, h2]
      omega

/-- A record whose default phone number contains a non-digit character
(`+`) and whose redirect mode is upper-case.  The cleaned forms pass the
per-field checks, so validation accepts the record — and returns it
unchanged. -/
def unnormalizedConfig : ConfigRecord :=
  { number_default := some "+1234567890", number_tr := some "905551234567",
    redirect_type := some "IMMEDIATE" }

/-- C6 counterexample: `setConfig` accepts `unnormalizedConfig` and stores
it verbatim, so the stored record has a `number_default` containing a
non-digit character and a redirect mode that is not lowercase. -/
theorem storedConfig_not_normalized :
    (setConfig unnormalizedConfig 7 { }).1 = .ok unnormalizedConfig ∧
    (setConfig unnormalizedConfig 7 { }).2.storedConfig = some unnormalizedConfig ∧
    unnormalizedConfig.number_default = some "+1234567890" ∧
    ("+1234567890".data.all Char.isDigit) = false ∧
    unnormalizedConfig.redirect_type = some "IMMEDIATE" ∧
    jsToLower "IMMEDIATE" ≠ "IMMEDIATE" := by
  decide

theorem validateConfiguration_ok (c v : ConfigRecord)
    (h : validateConfiguration c = .ok v) : v = c ∧ configErrors c = [] := by
  unfold validateConfiguration at h
  split at h
  next he => injection h with h1; exact ⟨h1.symm, he⟩
  next => cases h

theorem validatePhoneNumber_ok_shape (x : Option String) (fld : String)
    (h : errsOf (validatePhoneNumber x fld) = []) :
    ∃ n, x = some n ∧ n ≠ "" ∧ phoneNumberTest (stripNonDigits n) = true := by
  cases x with
  | none => simp [validatePhoneNumber, jsTruthy, errsOf] at h
  | some n =>
    by_cases hn : n = ""
    · subst hn
      simp [validatePhoneNumber, jsTruthy, errsOf] at h
    · refine ⟨n, rfl, hn, ?_⟩
      by_cases ht : phoneNumberTest (stripNonDigits n) = true
      · exact ht
      · simp [validatePhoneNumber, jsTruthy, hn, ht, errsOf] at h

theorem validateRedirectType_ok_shape (t : String) (fld : String) (ht : t ≠ "")
    (he : errsOf (validateRedirectType (some t) fld) = []) :
    jsToLower t = "immediate" ∨ jsToLower t = "delayed" ∨ jsToLower t = "custom" := by
  by_cases h1 : jsToLower t = "immediate"
  · exact Or.inl h1
  by_cases h2 : jsToLower t = "delayed"
  · exact Or.inr (Or.inl h2)
  by_cases h3 : jsToLower t = "custom"
  · exact Or.inr (Or.inr h3)
  simp [validateRedirectType, jsTruthy, ht, h1, h2, h3, errsOf] at he

/-- C6 (amended): every record accepted by `setConfig` has both phone
fields present and matching the 7-15-digit no-leading-0 shape **after
stripping non-digit characters**, and, whenever the redirect mode is
truthy, a mode that is one of `immediate`/`delayed`/`custom`
**case-insensitively**; the record is cached and stored exactly as
submitted — the cleaned digits-only numbers and the lowercased mode
computed during validation are not what is stored. -/
theorem setConfig_accepted_shape (c : ConfigRecord) (now : Nat) (st : ConfigState)
    (vc : ConfigRecord) (h : (setConfig c now st).1 = .ok vc) :
    vc = c ∧
    (setConfig c now st).2.storedConfig = some c ∧
    (setConfig c now st).2.cachedConfig = some c ∧
    (∃ n, c.number_default = some n ∧ n ≠ "" ∧ phoneNumberTest (stripNonDigits n) = true) ∧
    (∃ n, c.number_tr = some n ∧ n ≠ "" ∧ phoneNumberTest (stripNonDigits n) = true) ∧
    (∀ t, c.redirect_type = some t → t ≠ "" →
      jsToLower t = "immediate" ∨ jsToLower t = "delayed" ∨ jsToLower t = "custom") := by
  have hok : validateConfiguration c = .ok c ∧ configErrors c = [] := by
    cases hval : validateConfiguration c with
    | error es =>
      unfold setConfig at h
      rw [hval] at h
      simp at h
    | ok v =>
      obtain ⟨hv, he⟩ := validateConfiguration_ok c v hval
      exact ⟨by rw [hv], he⟩
  have hvc : vc = c := by
    unfold setConfig at h
    rw [hok.1] at h
    injection h with h1
    exact h1.symm
  have hE := hok.2
  simp only [configErrors, List.append_eq_nil, and_assoc] at hE
  obtain ⟨e1, e2, _, _, _, _, _, _, _, _, e11, _⟩ := hE
  refine ⟨hvc, ?_, ?_, validatePhoneNumber_ok_shape _ _ e1,
    validatePhoneNumber_ok_shape _ _ e2, ?_⟩
  · simp [setConfig, hok.1]
  · simp [setConfig, hok.1]
  · intro t hct htt
    rw [hct] at e11
    have htr : jsTruthy (some t) = true := by simp [jsTruthy, htt]
    rw [htr] at e11
    simp at e11
    exact validateRedirectType_ok_shape t _ htt e11

/-- Witness for the amended C6 at a concrete accepted record. -/
theorem setConfig_accepted_shape_witness :
    jsToLower "IMMEDIATE" = "immediate" ∨ jsToLower "IMMEDIATE" = "delayed" ∨
      jsToLower "IMMEDIATE" = "custom" :=
  ((setConfig_accepted_shape unnormalizedConfig 7 { } unnormalizedConfig
    (by decide)).2.2.2.2.2) "IMMEDIATE" (by decide) (by decide)

/-- C4: when any check fails, `setConfig` throws a single
`ValidationError` carrying the accumulated list `configErrors c` — every
violated check's message is in that one list, not only the first — and
`updateConfig` delegates to `setConfig` on the merged record.  The checks
that the source guards on truthiness/presence appear with the matching
guard hypothesis. -/
theorem setConfig_lists_all_violations (c : ConfigRecord) (now : Nat) (st : ConfigState)
    (h : configErrors c ≠ []) :
    (setConfig c now st).1 = .error (configErrors c) ∧
    (setConfig c now st).2 = st ∧
    (∀ m, validatePhoneNumber c.number_default "default" = .error m → m ∈ configErrors c) ∧
    (∀ m, validatePhoneNumber c.number_tr "Turkey" = .error m → m ∈ configErrors c) ∧
    (∀ m, validateText c.text_default "default text" = .error m → m ∈ configErrors c) ∧
    (∀ m, validateText c.text_tr "Turkey text" = .error m → m ∈ configErrors c) ∧
    (∀ m, jsTruthy c.telegram_channel_default = true →
      validateTelegramChannel c.telegram_channel_default "default Telegram channel" = .error m →
      m ∈ configErrors c) ∧
    (∀ m, jsTruthy c.telegram_channel_tr = true →
      validateTelegramChannel c.telegram_channel_tr "Turkey Telegram channel" = .error m →
      m ∈ configErrors c) ∧
    (∀ m, validateText c.telegram_text_default "default Telegram text" = .error m →
      m ∈ configErrors c) ∧
    (∀ m, validateText c.telegram_text_tr "Turkey Telegram text" = .error m →
      m ∈ configErrors c) ∧
    (∀ m, jsTruthy c.website_url_default = true →
      validateWebsiteUrl c.website_url_default "default website URL" = .error m →
      m ∈ configErrors c) ∧
    (∀ m, jsTruthy c.website_url_tr = true →
      validateWebsiteUrl c.website_url_tr "Turkey website URL" = .error m →
      m ∈ configErrors c) ∧
    (∀ m, jsTruthy c.redirect_type = true →
      validateRedirectType c.redirect_type "redirect type" = .error m → m ∈ configErrors c) ∧
    (∀ m, validateRedirectDelay c.redirect_delay "redirect delay" = .error m →
      m ∈ configErrors c) ∧
    (∀ (defaults : ConfigRecord) (upd : ConfigUpdates) (st₂ : ConfigState),
      updateConfig defaults upd now st₂ =
        setConfig (mergeConfig (getConfig defaults now st₂).1 upd) now
          (getConfig defaults now st₂).2) := by
  refine ⟨?_, ?_, ?_, ?_, ?_, ?_, ?_, ?_, ?_, ?_, ?_, ?_, ?_, ?_, fun _ _ _ => rfl⟩
  · simp [setConfig, validateConfiguration, h]
  · simp [setConfig, validateConfiguration, h]
  · intro m hm
    simp [configErrors, hm, errsOf]
  · intro m hm
    simp [configErrors, hm, errsOf]
  · intro m hm
    simp [configErrors, hm, errsOf]
  · intro m hm
    simp [configErrors, hm, errsOf]
  · intro m hg hm
    simp [configErrors, hg, hm, errsOf]
  · intro m hg hm
    simp [configErrors, hg, hm, errsOf]
  · intro m hm
    cases hx : c.telegram_text_default with
    | none =>
      rw [hx] at hm
      simp [validateText, jsTruthy] at hm
    | some t =>
      rw [hx] at hm
      simp [configErrors, hx, hm, errsOf]
  · intro m hm
    cases hx : c.telegram_text_tr with
    | none =>
      rw [hx] at hm
      simp [validateText, jsTruthy] at hm
    | some t =>
      rw [hx] at hm
      simp [configErrors, hx, hm, errsOf]
  · intro m hg hm
    simp [configErrors, hg, hm, errsOf]
  · intro m hg hm
    simp [configErrors, hg, hm, errsOf]
  · intro m hg hm
    simp [configErrors, hg, hm, errsOf]
  · intro m hm
    cases hx : c.redirect_delay with
    | none =>
      rw [hx] at hm
      simp [validateRedirectDelay] at hm
    | some d =>
      rw [hx] at hm
      simp [configErrors, hx, hm, errsOf]

/-- A record violating two independent checks at once: the default number
has a leading zero and the Turkey number is missing. -/
def doublyInvalidConfig : ConfigRecord :=
  { number_default := some "0123", number_tr := none }

/-- Witness for C4: both violation messages appear in the single thrown
error list. -/
theorem setConfig_lists_all_violations_witness :
    configErrors doublyInvalidConfig ≠ [] ∧
    (setConfig doublyInvalidConfig 5 { }).1 = .error (configErrors doublyInvalidConfig) ∧
    "default number must be 7-15 digits and not start with 0" ∈ configErrors doublyInvalidConfig ∧
    "Turkey number is required" ∈ configErrors doublyInvalidConfig := by
  have h := setConfig_lists_all_violations doublyInvalidConfig 5 { } (by decide)
  exact ⟨by decide, h.1, h.2.2.1 _ (by decide), h.2.2.2.1 _ (by decide)⟩

theorem getConfig_after (defaults : ConfigRecord) (now : Nat) (st : ConfigState) :
    (getConfig defaults now st).2.storedConfig = st.storedConfig ∧
    (getConfig defaults now st).2.cachedConfig = some (getConfig defaults now st).1 ∧
    (getConfig defaults now (getConfig defaults now st).2).1 = (getConfig defaults now st).1 := by
  unfold getConfig getConfigFromStore
  cases hc : st.cachedConfig with
  | none =>
    cases hs : st.storedConfig with
    | none => simp [configCacheTTL]
    | some p => simp [configCacheTTL]
  | some cc =>
    by_cases ht : now - st.lastCacheTime < configCacheTTL * 1000
    · simp [configCacheTTL] at ht
      simp [configCacheTTL, ht, hc]
    · simp [configCacheTTL] at ht
      have ht' : ¬(now - st.lastCacheTime < 300000) := by omega
      cases hs : st.storedConfig with
      | none => simp [configCacheTTL, ht', hs]
      | some p => simp [configCacheTTL, ht', hs]

/-- C5: `updateConfig` is atomic with respect to validation failure: when
the shallow merge of the updates over the current configuration fails
validation, the call throws the `ValidationError`, the key-value store
slot is untouched, the in-process cached copy holds exactly the previous
configuration, and a subsequent `getConfig` still returns the previous
configuration — no partial write. -/
theorem updateConfig_atomic (defaults : ConfigRecord) (upd : ConfigUpdates) (now : Nat)
    (st : ConfigState)
    (h : configErrors (mergeConfig (getConfig defaults now st).1 upd) ≠ []) :
    (updateConfig defaults upd now st).1 =
      .error (configErrors (mergeConfig (getConfig defaults now st).1 upd)) ∧
    (updateConfig defaults upd now st).2.storedConfig = st.storedConfig ∧
    (updateConfig defaults upd now st).2.cachedConfig = some (getConfig defaults now st).1 ∧
    (getConfig defaults now (updateConfig defaults upd now st).2).1 =
      (getConfig defaults now st).1 := by
  have ha := getConfig_after defaults now st
  have hs : updateConfig defaults upd now st =
      (.error (configErrors (mergeConfig (getConfig defaults now st).1 upd)),
        (getConfig defaults now st).2) := by
    unfold updateConfig setConfig validateConfiguration
    simp [h]
  rw [hs]
  exact ⟨rfl, ha.1, ha.2.1, ha.2.2⟩

/-- The spec's own atomicity example: a partial update setting the default
number to `"0123"` (leading zero, invalid). -/
def invalidNumberUpdate : ConfigUpdates :=
  { number_default := some (some "0123") }

/-- Witness for C5 on a fresh storage state holding `baseValidConfig`. -/
theorem updateConfig_atomic_witness :
    (updateConfig baseValidConfig invalidNumberUpdate 1000 { }).1 =
      .error (configErrors
        (mergeConfig (getConfig baseValidConfig 1000 { }).1 invalidNumberUpdate)) ∧
    (updateConfig baseValidConfig invalidNumberUpdate 1000 { }).2.storedConfig =
      ({ } : ConfigState).storedConfig ∧
    (updateConfig baseValidConfig invalidNumberUpdate 1000 { }).2.cachedConfig =
      some (getConfig baseValidConfig 1000 { }).1 ∧
    (getConfig baseValidConfig 1000 (updateConfig baseValidConfig invalidNumberUpdate 1000 { }).2).1 =
      (getConfig baseValidConfig 1000 { }).1 := by
  have h := updateConfig_atomic baseValidConfig invalidNumberUpdate 1000 { } (by decide)
  exact ⟨h.1, h.2.1, h.2.2.1, h.2.2.2⟩

/-! ## Geo-resolution engine (`services/geo.js`)

`getCountryCode` runs against external effects (the key-value cache, three
HTTP providers, one self-lookup).  We embed one run as a pure function of
an environment recording what each external call would observe, and return
alongside the country the side effects the spec talks about. -/

/-- `isPrivateIP(ip)`: empty, loopback (`127.`), RFC1918 (`10.`,
`192.168.`, `172.16.`-`172.31.`), IPv6 loopback/link-local/unique-local.
The second-octet alternation `(1[6-9]|2[0-9]|3[0-1])` of the source regex
matches exactly the two-digit decimal strings `16`..`31`, which is how the
`172.` range is rendered here. -/
def isPrivateIP (ip : String) : Bool :=
  if ip = "" then true
  else
    "127.".data.isPrefixOf ip.data ||
    "10.".data.isPrefixOf ip.data ||
    "192.168.".data.isPrefixOf ip.data ||
    ((List.range 16).any fun k =>
      ("172." ++ toString (16 + k) ++ ".").data.isPrefixOf ip.data) ||
    ip = "::1" ||
    "fe80:".data.isPrefixOf ip.data ||
    "fc00:".data.isPrefixOf ip.data ||
    "fd00:".data.isPrefixOf ip.data

/-- Value of a decimal digit string. -/
def digitsVal (cs : List Char) : Nat :=
  cs.foldl (fun a c => a * 10 + (c.toNat - '0'.toNat)) 0

/-- One octet of the `validateIPAddress` IPv4 regex:
`25[0-5]|2[0-4][0-9]|[01]?[0-9][0-9]?`, which matches exactly the 1-3
digit strings whose decimal value is at most 255 (three-digit values above
255 fail every alternative; any 1-2 digit string matches the third). -/
def ipv4OctetTest (cs : List Char) : Bool :=
  decide (1 ≤ cs.length) && decide (cs.length ≤ 3) && cs.all Char.isDigit &&
    decide (digitsVal cs ≤ 255)

/-- Split a character list at every occurrence of `sep`
(like `String.splitOn` with a one-character separator). -/
def splitOnChar (sep : Char) : List Char → List (List Char)
  | [] => [[]]
  | c :: rest =>
    let r := splitOnChar sep rest
    if c = sep then [] :: r
    else
      match r with
      | [] => [[c]]
      | g :: gs => (c :: g) :: gs

/-- The IPv4 half of `validateIPAddress`: exactly four dot-separated
octets. -/
def validIPv4 (ip : String) : Bool :=
  let parts := splitOnChar '.' ip.data
  decide (parts.length = 4) && parts.all ipv4OctetTest

/-- Hexadecimal digit (`[0-9a-fA-F]`). -/
def hexDigit (c : Char) : Bool :=
  c.isDigit || ('a' ≤ c && c ≤ 'f') || ('A' ≤ c && c ≤ 'F')

/-- The IPv6 half of `validateIPAddress`
(`^(?:[0-9a-fA-F]{1,4}:){7}[0-9a-fA-F]{1,4}$|^::1$|^::$`): eight
colon-separated 1-4 digit hex groups, or the two literal shorthands. -/
def validIPv6 (ip : String) : Bool :=
  (let parts := splitOnChar ':' ip.data
   decide (parts.length = 8) &&
     parts.all fun p => decide (1 ≤ p.length) && decide (p.length ≤ 4) && p.all hexDigit) ||
  ip = "::1" || ip = "::"

/-- `validateIPAddress(ip)` as a test: `false` means the function throws
a `ValidationError` (which the outer `try` of `getCountryCode` catches,
degrading to the fallback). -/
def validIPAddressTest (ip : String) : Bool :=
  ip ≠ "" && (validIPv4 ip || validIPv6 ip)

/-- The external world as observed by one `getCountryCode` run: the geo
cache contents (via `redisManager.get`), the outcome of
`fetchFromProvider` per provider name (`none` = thrown error, timeout,
non-2xx, malformed body, missing credential, or a null parser result —
the parsers already uppercase and null-out falsy countries), the
`country` field of the self-lookup response (`none` = failed request or
missing field), the IPInfo credential, and the configured cache TTL. -/
structure GeoEnv where
  cache : String → Option String
  providerCountry : String → Option String
  selfLookupCountry : Option String
  ipinfoToken : Option String
  cacheTTL : Nat

/-- The ordered provider list `this.providers` (by name). -/
def providers : List String := ["ipinfo", "ipapi", "ip-api"]

/-- Observable outcome of one `getCountryCode` run: the returned country
plus the side effects the spec constrains — whether the cache was
consulted, which providers were attempted, the cache write issued (key,
value, TTL), and whether the self-lookup HTTP call fired. -/
structure GeoResult where
  country : String
  cacheChecked : Bool
  providerCalls : List String
  cacheWrite : Option (String × String × Nat)
  selfLookup : Bool
deriving Repr, DecidableEq

/-- `getFallbackCountry()`: without a token, `'REST'` immediately (no
HTTP call); with a token, the self-lookup's `country` field uppercased,
`'REST'` when the request fails or the field is falsy.  Second component:
whether the self-lookup HTTP call was issued. -/
def getFallbackCountry (env : GeoEnv) : String × Bool :=
  match env.ipinfoToken with
  | none => ("REST", false)
  | some _ =>
    match env.selfLookupCountry with
    | none => ("REST", true)
    | some c => (if jsToUpper c = "" then "REST" else jsToUpper c, true)

/-- The `if (cached) return cached` filter of the cache read
(`getCachedCountry` returns the stored value, and only a truthy value
short-circuits the lookup). -/
def cacheHit (v : Option String) : Option String :=
  match v with
  | some s => if s ≠ "" then some s else none
  | none => none

/-- The provider loop of `getCountryCode`: try each provider in order and
stop at the first truthy country; every attempted provider is recorded. -/
def runProviders (env : GeoEnv) : List String → Option String × List String
  | [] => (none, [])
  | p :: rest =>
    match env.providerCountry p with
    | some c =>
      if c ≠ "" then (some c, [p])
      else
        let r := runProviders env rest
        (r.1, p :: r.2)
    | none =>
      let r := runProviders env rest
      (r.1, p :: r.2)

/-- `getCountryCode(ip)`: private/empty IP → fallback directly (no cache
read, no provider call); invalid IP → `validateIPAddress` throws and the
outer `try` degrades to the fallback likewise; otherwise a truthy cached
value wins, else the provider loop runs (a success is written to the
cache under `geo_<ip>` with the configured TTL), else the fallback. -/
def getCountryCode (env : GeoEnv) (ip : String) : GeoResult :=
  if ip = "" || isPrivateIP ip then
    let f := getFallbackCountry env
    { country := f.1, cacheChecked := false, providerCalls := [], cacheWrite := none,
      selfLookup := f.2 }
  else if !validIPAddressTest ip then
    let f := getFallbackCountry env
    { country := f.1, cacheChecked := false, providerCalls := [], cacheWrite := none,
      selfLookup := f.2 }
  else
    match cacheHit (env.cache ("geo_" ++ ip)) with
    | some s =>
      { country := s, cacheChecked := true, providerCalls := [], cacheWrite := none,
        selfLookup := false }
    | none =>
      match runProviders env providers with
      | (some c, calls) =>
        { country := c, cacheChecked := true, providerCalls := calls,
          cacheWrite := some ("geo_" ++ ip, c, env.cacheTTL), selfLookup := false }
      | (none, calls) =>
        let f := getFallbackCountry env
        { country := f.1, cacheChecked := true, providerCalls := calls, cacheWrite := none,
          selfLookup := f.2 }

theorem getFallbackCountry_rest (env : GeoEnv)
    (hf : env.ipinfoToken = none ∨ env.selfLookupCountry = none ∨
      env.selfLookupCountry = some "") :
    (getFallbackCountry env).1 = "REST" := by
  cases ht : env.ipinfoToken with
  | none => simp [getFallbackCountry, ht]
  | some tok =>
    rcases hf with h | h | h
    · rw [ht] at h
      cases h
    · simp [getFallbackCountry, ht, h]
    · simp [getFallbackCountry, ht, h, jsToUpper]

theorem runProviders_all_fail (env : GeoEnv) (ps : List String)
    (hp : ∀ p, env.providerCountry p = none ∨ env.providerCountry p = some "") :
    (runProviders env ps).1 = none := by
  induction ps with
  | nil => rfl
  | cons p rest ih =>
    rcases hp p with h | h
    · simp [runProviders, h, ih]
    · simp [runProviders, h, ih]

theorem cacheHit_none_of_empty (v : Option String) (hc : ∀ s, v = some s → s = "") :
    cacheHit v = none := by
  cases v with
  | none => rfl
  | some s =>
    have := hc s rfl
    simp [cacheHit, this]

/-- C2: `getCountryCode` is total by construction (every failure branch —
invalid IP, cache error, provider error, self-lookup error — is caught in
the source and degrades), and when every lookup avenue yields nothing
(the cache slot is absent or empty, every provider fails or returns a
falsy country, and the self-lookup avenue fails: no credential, failed
request, or falsy country field) the returned value is the literal
`"REST"`. -/
theorem getCountryCode_total_fallback (env : GeoEnv) (ip : String)
    (hc : ∀ s, env.cache ("geo_" ++ ip) = some s → s = "")
    (hp : ∀ p, env.providerCountry p = none ∨ env.providerCountry p = some "")
    (hf : env.ipinfoToken = none ∨ env.selfLookupCountry = none ∨
      env.selfLookupCountry = some "") :
    (getCountryCode env ip).country = "REST" := by
  have hrest := getFallbackCountry_rest env hf
  by_cases hb : (ip = "" || isPrivateIP ip) = true
  · simp [getCountryCode, hb, hrest]
  · by_cases hv : validIPAddressTest ip = true
    · have hch := cacheHit_none_of_empty (env.cache ("geo_" ++ ip)) hc
      have hrp := runProviders_all_fail env providers hp
      simp only [getCountryCode, hb, hv, Bool.not_true, if_false, hch]
      rcases hrr : runProviders env providers with ⟨r1, r2⟩
      rw [hrr] at hrp
      simp at hrp
      subst hrp
      simp [hrest]
    · simp [getCountryCode, hb, hv, hrest]

/-- A concrete environment where every lookup avenue fails. -/
def geoEnvAllFail : GeoEnv :=
  { cache := fun _ => none, providerCountry := fun _ => none, selfLookupCountry := none,
    ipinfoToken := none, cacheTTL := 86400 }

/-- Witness for C2 on a public IP with every avenue failing. -/
theorem getCountryCode_total_fallback_witness :
    (getCountryCode geoEnvAllFail "8.8.8.8").country = "REST" :=
  getCountryCode_total_fallback geoEnvAllFail "8.8.8.8"
    (fun s h => by simp [geoEnvAllFail] at h)
    (fun p => Or.inl rfl)
    (Or.inl rfl)

/-- C3: for an empty or private/loopback/link-local IP, `getCountryCode`
performs no cache lookup and attempts no provider; it goes straight to
the self-lookup fallback (whose outcome and HTTP call it returns). -/
theorem getCountryCode_private_skips (env : GeoEnv) (ip : String)
    (h : ip = "" ∨ isPrivateIP ip = true) :
    (getCountryCode env ip).cacheChecked = false ∧
    (getCountryCode env ip).providerCalls = [] ∧
    (getCountryCode env ip).cacheWrite = none ∧
    (getCountryCode env ip).country = (getFallbackCountry env).1 ∧
    (getCountryCode env ip).selfLookup = (getFallbackCountry env).2 := by
  have hb : (ip = "" || isPrivateIP ip) = true := by
    rcases h with h | h
    · simp [h]
    · simp [h]
  simp [getCountryCode, hb]

/-- A concrete environment where the cache and all providers would
answer, to exhibit that the private-IP path still ignores them. -/
def geoEnvExample : GeoEnv :=
  { cache := fun _ => none,
    providerCountry := fun p => if p = "ipapi" then some "US" else none,
    selfLookupCountry := some "DE", ipinfoToken := none, cacheTTL := 86400 }

/-- Witness for C3 at the RFC1918 address `10.1.2.3`. -/
theorem getCountryCode_private_skips_witness :
    (getCountryCode geoEnvExample "10.1.2.3").cacheChecked = false ∧
    (getCountryCode geoEnvExample "10.1.2.3").providerCalls = [] ∧
    (getCountryCode geoEnvExample "10.1.2.3").cacheWrite = none ∧
    (getCountryCode geoEnvExample "10.1.2.3").country = (getFallbackCountry geoEnvExample).1 ∧
    (getCountryCode geoEnvExample "10.1.2.3").selfLookup = (getFallbackCountry geoEnvExample).2 :=
  getCountryCode_private_skips geoEnvExample "10.1.2.3" (Or.inr (by decide))

theorem runProviders_first_ne_empty (env : GeoEnv) (ps : List String) (c : String)
    (h : (runProviders env ps).1 = some c) : c ≠ "" := by
  induction ps with
  | nil => cases h
  | cons p rest ih =>
    unfold runProviders at h
    cases hp : env.providerCountry p with
    | some v =>
      rw [hp] at h
      by_cases hv : v = ""
      · simp [hv] at h
        exact ih h
      · simp [hv] at h
        rw [← h]
        exact hv
    | none =>
      rw [hp] at h
      simp at h
      exact ih h

theorem getCountryCode_public (env : GeoEnv) (ip : String)
    (hb : (ip = "" || isPrivateIP ip) = false) (hval : validIPAddressTest ip = true) :
    getCountryCode env ip =
      match cacheHit (env.cache ("geo_" ++ ip)) with
      | some s =>
        { country := s, cacheChecked := true, providerCalls := [], cacheWrite := none,
          selfLookup := false }
      | none =>
        match runProviders env providers with
        | (some c, calls) =>
          { country := c, cacheChecked := true, providerCalls := calls,
            cacheWrite := some ("geo_" ++ ip, c, env.cacheTTL), selfLookup := false }
        | (none, calls) =>
          { country := (getFallbackCountry env).1, cacheChecked := true,
            providerCalls := calls, cacheWrite := none,
            selfLookup := (getFallbackCountry env).2 } := by
  simp [getCountryCode, hb, hval]

/-- C7: if a run of `getCountryCode` on a public, well-formed IP issued
the cache write `geo_<ip> ↦ Y` (which happens exactly when a provider
resolved the IP), then that run returned `Y`, the write used the
configured TTL, and a second run against a cache now holding `geo_<ip> ↦
Y` returns `Y` as a pure cache hit: no provider attempted, no cache
write, no self-lookup. -/
theorem providerResolution_then_cacheHit (env : GeoEnv) (ip Y : String) (ttl : Nat)
    (hpriv : isPrivateIP ip = false) (hval : validIPAddressTest ip = true)
    (hw : (getCountryCode env ip).cacheWrite = some ("geo_" ++ ip, Y, ttl)) :
    (getCountryCode env ip).country = Y ∧
    ttl = env.cacheTTL ∧
    getCountryCode
        { env with cache := fun k => if k = "geo_" ++ ip then some Y else env.cache k } ip =
      { country := Y, cacheChecked := true, providerCalls := [], cacheWrite := none,
        selfLookup := false } := by
  have hip : ip ≠ "" := by
    intro he
    rw [he] at hpriv
    simp [isPrivateIP] at hpriv
  have hb : (ip = "" || isPrivateIP ip) = false := by simp [hip, hpriv]
  rw [getCountryCode_public env ip hb hval] at hw ⊢
  cases hch : cacheHit (env.cache ("geo_" ++ ip)) with
  | some s =>
    rw [hch] at hw
    simp at hw
  | none =>
    rw [hch] at hw
    rcases hrr : runProviders env providers with ⟨r1, r2⟩
    rw [hrr] at hw
    cases r1 with
    | none => simp at hw
    | some c =>
      simp at hw
      obtain ⟨hcY, httl⟩ := hw
      have hYne : Y ≠ "" := by
        rw [← hcY]
        exact runProviders_first_ne_empty env providers c (by rw [hrr])
      refine ⟨by simp [hcY], httl.symm, ?_⟩
      rw [getCountryCode_public _ ip hb hval]
      simp [cacheHit, hYne]

/-- Witness for C7: a provider resolves `8.8.8.8` to `US`; rereading with
the written cache entry is a pure cache hit returning `US`. -/
theorem providerResolution_then_cacheHit_witness :
    (getCountryCode geoEnvExample "8.8.8.8").country = "US" ∧
    getCountryCode
        { geoEnvExample with
          cache := fun k => if k = "geo_" ++ "8.8.8.8" then some "US" else geoEnvExample.cache k }
        "8.8.8.8" =
      { country := "US", cacheChecked := true, providerCalls := [], cacheWrite := none,
        selfLookup := false } := by
  have h := providerResolution_then_cacheHit geoEnvExample "8.8.8.8" "US" 86400
    (by decide) (by decide) (by decide)
  exact ⟨h.1, h.2.2⟩

/-! ## Key-value store adapter (`src/storage/redis.js`)

`RedisManager.get`/`set` try the durable backend when connected and fall
back to the in-process `memoryFallback` map both when disconnected and
when a backend call throws.  One call is embedded as a pure function of
the manager's state plus a behaviour oracle describing what each backend
command would do (`Except Unit` — `error` is a thrown backend error). -/

/-- Mutable state of a `RedisManager`: connection flags, the in-process
fallback map, and the deferred removals scheduled by `setTimeout`
(key and TTL seconds). -/
structure RedisState where
  isConnected : Bool
  hasClient : Bool
  memoryFallback : String → Option String
  pendingDeletes : List (String × Nat)

/-- Outcomes of the backend commands for one call. -/
structure BackendBehavior where
  getResult : String → Except Unit (Option String)
  setResult : String → String → Option Nat → Except Unit Unit

/-- `this.memoryFallback.get(key) || null`: an empty-string value is falsy
and is served as `null`. -/
def jsOrNull (v : Option String) : Option String :=
  match v with
  | some s => if s = "" then none else some s
  | none => none

/-- The fallback write of `set`: put the value in the map and, when `ttl`
is truthy (`if (ttl)` — zero and `null` are falsy), schedule
`setTimeout(() => delete, ttl * 1000)`. -/
def writeFallback (st : RedisState) (key value : String) (ttl : Option Nat) : RedisState :=
  { st with
    memoryFallback := fun k => if k = key then some value else st.memoryFallback k,
    pendingDeletes :=
      match ttl with
      | some t => if t ≠ 0 then st.pendingDeletes ++ [(key, t)] else st.pendingDeletes
      | none => st.pendingDeletes }

/-- `get(key)`: backend first when connected; on a thrown backend error or
when disconnected, serve `memoryFallback.get(key) || null`.  Never
rethrows. -/
def redisGet (b : BackendBehavior) (st : RedisState) (key : String) : Option String :=
  if st.isConnected && st.hasClient then
    match b.getResult key with
    | .ok v => v
    | .error _ => jsOrNull (st.memoryFallback key)
  else jsOrNull (st.memoryFallback key)

/-- `set(key, value, ttl)`: backend `setex`/`set` when connected,
returning `true`; on a thrown backend error, write to the fallback map
(TTL honored via the deferred removal) and return **`false`**; when
disconnected, write to the fallback map and return `true`.  Never
rethrows. -/
def redisSet (b : BackendBehavior) (st : RedisState) (key value : String) (ttl : Option Nat) :
    Bool × RedisState :=
  if st.isConnected && st.hasClient then
    match b.setResult key value ttl with
    | .ok _ => (true, st)
    | .error _ => (false, writeFallback st key value ttl)
  else (true, writeFallback st key value ttl)

/-- A connected state with an empty fallback map. -/
def connectedState : RedisState :=
  { isConnected := true, hasClient := true, memoryFallback := fun _ => none,
    pendingDeletes := [] }

/-- A backend whose every command throws. -/
def failingBackend : BackendBehavior :=
  { getResult := fun _ => .error (), setResult := fun _ _ _ => .error () }

/-- A backend whose every command succeeds (reads find nothing). -/
def okBackend : BackendBehavior :=
  { getResult := fun _ => .ok none, setResult := fun _ _ _ => .ok () }

/-- C8 counterexample: on a backend error, `set` still performs the
fallback write and propagates no error, but it returns `false`, whereas
the same call against a working backend returns `true` — so the caller
can observe the difference, contradicting "observable behaviour
equivalent to a successful operation". -/
theorem redisSet_error_not_equivalent :
    (redisSet failingBackend connectedState "k" "v" (some 60)).1 = false ∧
    (redisSet okBackend connectedState "k" "v" (some 60)).1 = true ∧
    (redisSet failingBackend connectedState "k" "v" (some 60)).1 ≠
      (redisSet okBackend connectedState "k" "v" (some 60)).1 := by
  refine ⟨rfl, rfl, ?_⟩
  intro h
  cases h

/-- C8 (amended): `get` and `set` never rethrow a backend error.  On a
backend error `get` serves `memoryFallback.get(key) || null`, and `set`
writes the value to the fallback map with the TTL honored via a deferred
removal — but `set` returns `false` in that case (its only observable
difference from a successful operation; no caller in the repository
inspects the flag). -/
theorem redis_backend_error_fallback (b : BackendBehavior) (st : RedisState)
    (key value : String) (ttl : Nat)
    (hconn : (st.isConnected && st.hasClient) = true)
    (hget : b.getResult key = .error ())
    (hset : b.setResult key value (some ttl) = .error ())
    (httl : ttl ≠ 0) :
    redisGet b st key = jsOrNull (st.memoryFallback key) ∧
    (redisSet b st key value (some ttl)).1 = false ∧
    (redisSet b st key value (some ttl)).2.memoryFallback key = some value ∧
    (redisSet b st key value (some ttl)).2.pendingDeletes =
      st.pendingDeletes ++ [(key, ttl)] ∧
    redisGet b (redisSet b st key value (some ttl)).2 key =
      jsOrNull (some value) := by
  refine ⟨?_, ?_, ?_, ?_, ?_⟩
  · simp [redisGet, hconn, hget]
  · simp [redisSet, hconn, hset]
  · simp [redisSet, hconn, hset, writeFallback]
  · simp [redisSet, hconn, hset, writeFallback, httl]
  · simp [redisSet, hconn, hset, writeFallback, redisGet, hget]

/-- Witness for the amended C8 at a concrete failing backend. -/
theorem redis_backend_error_fallback_witness :
    redisGet failingBackend connectedState "k" =
      jsOrNull (connectedState.memoryFallback "k") ∧
    (redisSet failingBackend connectedState "k" "v" (some 60)).1 = false ∧
    (redisSet failingBackend connectedState "k" "v" (some 60)).2.memoryFallback "k" =
      some "v" ∧
    (redisSet failingBackend connectedState "k" "v" (some 60)).2.pendingDeletes =
      connectedState.pendingDeletes ++ [("k", 60)] ∧
    redisGet failingBackend (redisSet failingBackend connectedState "k" "v" (some 60)).2 "k" =
      jsOrNull (some "v") := by
  have h := redis_backend_error_fallback failingBackend connectedState "k" "v" 60
    rfl rfl rfl (by decide)
  exact ⟨h.1, h.2.1, h.2.2.1, h.2.2.2.1, h.2.2.2.2⟩
